import Mathlib

/-!
Verification of the e-paper weather display script (`weather.py`).

The script is a linear pipeline: fetch a JSON weather payload, project it
into a flat record (`process_weather_data`), compose a monochrome bitmap
(`generate_display_image`), and drive it onto the panel (`display_image`),
with a top-level `main` that logs failures and exits nonzero.  This file
gives a shallow embedding of those functions: Python dict/list payloads
become a `Json` inductive, Python exceptions become an explicit `PyError`
sum threaded through `Except`, the filesystem and the hardware become
explicit environments, and machine floats are modelled by rationals.
-/

namespace Weather

/-- JSON values as Python's `json` module produces them: `null`, booleans,
integers and floats (kept distinct, as Python does), strings, arrays and
objects.  Floats are modelled by rationals. -/
inductive Json where
  | null
  | bool (b : Bool)
  | int (z : ℤ)
  | float (q : ℚ)
  | str (s : String)
  | arr (elems : List Json)
  | obj (fields : List (String × Json))

/-- Python exceptions raised by the script, as a plain sum. -/
inductive PyError where
  | keyError (key : String)
  | indexError
  | typeError (msg : String)
  | valueError (msg : String)
  | requestError (msg : String)
  | hardwareError (msg : String)
  deriving Repr, DecidableEq

/-- Python `str(e)` of an exception, as used in the script's log messages
(`str` of a `KeyError` is the quoted key; of an `IndexError`, the standard
"list index out of range" message). -/
def PyError.text : PyError → String
  | .keyError k => "'" ++ k ++ "'"
  | .indexError => "list index out of range"
  | .typeError m => m
  | .valueError m => m
  | .requestError m => m
  | .hardwareError m => m

/-- Whether the exception is a `KeyError` (the only class the projector's
`except KeyError` clause catches). -/
def PyError.isKeyError : PyError → Bool
  | .keyError _ => true
  | _ => false

/-- Python `d[k]` on a dict: the value when the key is present, `KeyError`
when absent, `TypeError` when the subject is not a dict. -/
def Json.getKey : Json → String → Except PyError Json
  | .obj fields, k =>
      match fields.lookup k with
      | some v => .ok v
      | none => .error (.keyError k)
  | _, _ => .error (.typeError "value is not subscriptable by string")

/-- Python `xs[i]` on a list: the element when in range, `IndexError` when
out of range, `TypeError` when the subject is not a list. -/
def Json.getIdx : Json → Nat → Except PyError Json
  | .arr elems, i =>
      match elems.get? i with
      | some v => .ok v
      | none => .error .indexError
  | _, _ => .error (.typeError "value is not subscriptable by index")

/-- One step of Python `str.title()`: a cased (alphabetic) character is
uppercased when the previous character was not cased and lowercased when it
was; other characters pass through.  The boolean argument records whether
the previous character was cased. -/
def titleChars : Bool → List Char → List Char
  | _, [] => []
  | prevCased, c :: rest =>
      let cased := c.isAlpha
      let c2 := if cased then (if prevCased then c.toLower else c.toUpper) else c
      c2 :: titleChars cased rest

/-- Python `s.title()` on a string (ASCII-cased model). -/
def pyTitle (s : String) : String := String.mk (titleChars false s.data)

/-- Python `v.title()` on a payload value: defined on strings, an
`AttributeError`-style failure (modelled as `typeError`) otherwise. -/
def Json.title : Json → Except PyError Json
  | .str s => .ok (.str (pyTitle s))
  | _ => .error (.typeError "value has no attribute title")

/-- Python `v * n` for an integer literal `n`, as in `daily['pop'] * 100`:
int times int is an int, float times int a float, bool is promoted to
0 or 1; anything else raises `TypeError`. -/
def Json.mulInt : Json → ℤ → Except PyError Json
  | .int z, n => .ok (.int (z * n))
  | .float q, n => .ok (.float (q * (n : ℚ)))
  | .bool b, n => .ok (.int ((if b then (1 : ℤ) else 0) * n))
  | _, _ => .error (.typeError "unsupported operand type for *")

/-- Log levels used by the script (`logging.info` / `warning` / `error`). -/
inductive LogLevel where
  | info
  | warning
  | error
  deriving Repr, DecidableEq

/-- One log record: a level and a message. -/
structure LogEntry where
  level : LogLevel
  msg : String
  deriving Repr, DecidableEq

/-- The flat record built by `process_weather_data`.  Python stores the
payload's values unchanged in a dict, so every field is a `Json` value. -/
structure WeatherRecord where
  temp_current : Json
  feels_like : Json
  humidity : Json
  wind : Json
  report : Json
  icon_code : Json
  temp_max : Json
  temp_min : Json
  precip_percent : Json

/-- `process_weather_data(data)`: extracts the required fields in the
source's evaluation order (`current`, then `daily[0]`, then the dict
literal's entries top to bottom, with `current['weather']` and
`daily['temp']` re-evaluated where the source subscripts them twice),
title-casing the description and multiplying the precipitation
probability by 100. -/
def process_weather_data (data : Json) : Except PyError WeatherRecord := do
  let current ← data.getKey "current"
  let daily ← (← data.getKey "daily").getIdx 0
  let temp_current ← current.getKey "temp"
  let feels_like ← current.getKey "feels_like"
  let humidity ← current.getKey "humidity"
  let wind ← current.getKey "wind_speed"
  let descr ← (← (← current.getKey "weather").getIdx 0).getKey "description"
  let report ← descr.title
  let icon_code ← (← (← current.getKey "weather").getIdx 0).getKey "icon"
  let temp_max ← (← daily.getKey "temp").getKey "max"
  let temp_min ← (← daily.getKey "temp").getKey "min"
  let precip_percent ← (← daily.getKey "pop").mulInt 100
  return { temp_current := temp_current, feels_like := feels_like,
           humidity := humidity, wind := wind, report := report,
           icon_code := icon_code, temp_max := temp_max,
           temp_min := temp_min, precip_percent := precip_percent }

/-- `process_weather_data` together with its `try/except KeyError` logging:
on success one info line; on a `KeyError` the error is logged and re-raised;
any other exception propagates out of the function unlogged (the `except`
clause names only `KeyError`). -/
def process_weather_data_run (data : Json) :
    Except PyError WeatherRecord × List LogEntry :=
  match process_weather_data data with
  | .ok rec => (.ok rec, [⟨.info, "Weather data processed successfully."⟩])
  | .error e =>
      if e.isKeyError then
        (.error e, [⟨.error, "Error processing weather data: " ++ e.text⟩])
      else
        (.error e, [])

/-- The chain of container lookups `process_weather_data` performs, without
the value transformations: used to state "all required fields are present". -/
def required_lookups (data : Json) : Except PyError Unit := do
  let current ← data.getKey "current"
  let daily ← (← data.getKey "daily").getIdx 0
  let _ ← current.getKey "temp"
  let _ ← current.getKey "feels_like"
  let _ ← current.getKey "humidity"
  let _ ← current.getKey "wind_speed"
  let w0 ← (← current.getKey "weather").getIdx 0
  let _ ← w0.getKey "description"
  let _ ← w0.getKey "icon"
  let dt ← daily.getKey "temp"
  let _ ← dt.getKey "max"
  let _ ← dt.getKey "min"
  let _ ← daily.getKey "pop"
  return ()

/-- Whether an `Except` computation succeeded. -/
def exceptOk {α : Type} : Except PyError α → Bool
  | .ok _ => true
  | .error _ => false

/-- All required fields of the payload are present (every container lookup
of the projector succeeds). -/
def has_required_fields (data : Json) : Bool :=
  exceptOk (required_lookups data)

/-- PIL's 1-bit black value, `COLOR_BLACK = 0`. -/
def COLOR_BLACK : Nat := 0

/-- PIL's white value, `COLOR_WHITE = 255`. -/
def COLOR_WHITE : Nat := 255

/-- A PIL image: a mode string, a pixel size, and the pixel contents as a
function from coordinates to a grey value. -/
structure PILImage where
  mode : String
  width : Nat
  height : Nat
  pix : Nat → Nat → Nat

/-- `Image.new(mode, (w, h), color)`: a canvas filled with one color. -/
def imageNew (mode : String) (w h : Nat) (color : Nat) : PILImage :=
  ⟨mode, w, h, fun _ _ => color⟩

/-- `img.convert('1')`: same size, mode `"1"`, pixels forced to pure black
or white.  (PIL dithers by default; a plain threshold stands in for the
pixel mapping, which no property here depends on.) -/
def convert1 (img : PILImage) : PILImage :=
  { img with mode := "1",
             pix := fun x y => if 128 ≤ img.pix x y then COLOR_WHITE else COLOR_BLACK }

/-- Python's round-half-to-even of a rational to an integer: the rounding
`format(x, '.0f')` applies to the value.  With `fl` the floor of `q` and
`r/d` the fractional part, the half comparison is the integer comparison
of `2 * r` with `d`. -/
def roundHalfEven (q : ℚ) : ℤ :=
  let d : ℤ := (q.den : ℤ)
  let fl : ℤ := Int.fdiv q.num d
  let r : ℤ := q.num - fl * d
  if 2 * r < d then fl
  else if 2 * r = d then (if fl % 2 = 0 then fl else fl + 1)
  else fl + 1

/-- Python `f"{q:.0f}"` on the rational model of a float: round half to
even to an integer; a negative value that rounds to zero prints `"-0"`
(`q.num < 0` states `q < 0` on the numerator, which `decide` can
evaluate). -/
def formatF0 (q : ℚ) : String :=
  let n := roundHalfEven q
  if q.num < 0 ∧ n = 0 then "-0" else toString n

/-- Python `f"{q:.1f}"`: round ten times the value half to even, and print
the signed integer and tenths digits around a decimal point.  Ten times
the value is written `mkRat (10 * q.num) q.den`; `formatF1_scales_tenths`
proves this equals `10 * q`. -/
def formatF1 (q : ℚ) : String :=
  let n := roundHalfEven (mkRat (10 * q.num) q.den)
  let sign := if n < 0 ∨ (n = 0 ∧ q.num < 0) then "-" else ""
  sign ++ toString (n.natAbs / 10) ++ "." ++ toString (n.natAbs % 10)

/-- The reading `generate_display_image` consumes, with each field at the
type the data model fixes for it (temperatures, wind and precipitation
percentage as real numbers — here rationals —, humidity as an integer
percentage, report and icon code as strings). -/
structure WeatherReading where
  temp_current : ℚ
  feels_like : ℚ
  humidity : ℤ
  wind : ℚ
  report : String
  icon_code : String
  temp_max : ℚ
  temp_min : ℚ
  precip_percent : ℚ

/-- The renderer's external inputs: whether `template.png` exists and its
contents, which icon files exist and their contents, and the wall-clock
time already formatted as `%H:%M`. -/
structure RenderEnv where
  templateExists : Bool
  templateImage : PILImage
  iconExists : String → Bool
  iconImage : String → PILImage
  clock : String

/-- One `draw.text` call: position, drawn string, font size and fill. -/
structure TextOp where
  pos : Nat × Nat
  text : String
  fontSize : Nat
  fill : Nat
  deriving Repr, DecidableEq

/-- One `template.paste` call: the pasted icon image and its position. -/
structure IconPaste where
  icon : PILImage
  pos : Nat × Nat

/-- The renderer's output: the background image, the recorded paste and
text operations drawn onto it (overlays are kept as operations since font
rasterization is external), and the log lines emitted. -/
structure RenderResult where
  image : PILImage
  pastes : List IconPaste
  texts : List TextOp
  logs : List LogEntry

/-- `generate_display_image(weather_data)`: load `template.png` converted
to 1-bit if present, else warn and create a blank white 800×480 canvas;
paste the icon named by `icon_code` at (40, 15) if its file exists, else
warn; then draw the fixed text overlays (report, precipitation, current
temperature, feels-like, high, low, humidity, wind, the "UPDATED" caption
and the clock) at the source's coordinates, font sizes, formats and fill
colors; finally log success. -/
def generate_display_image (env : RenderEnv) (w : WeatherReading) : RenderResult :=
  let bg :=
    if env.templateExists then
      (convert1 env.templateImage, ([] : List LogEntry))
    else
      (imageNew "1" 800 480 COLOR_WHITE,
        [(⟨.warning, "template.png not found. Creating a blank white background."⟩ : LogEntry)])
  let ic :=
    if env.iconExists w.icon_code then
      ([(⟨convert1 (env.iconImage w.icon_code), (40, 15)⟩ : IconPaste)],
        ([] : List LogEntry))
    else
      (([] : List IconPaste),
        [(⟨.warning, "Weather icon " ++ w.icon_code ++ ".png not found."⟩ : LogEntry)])
  let texts : List TextOp := [
    ⟨(30, 200), "Now: " ++ w.report, 22, COLOR_BLACK⟩,
    ⟨(30, 240), "Precip: " ++ formatF0 w.precip_percent ++ "%", 30, COLOR_BLACK⟩,
    ⟨(375, 35), formatF0 w.temp_current ++ "°C", 160, COLOR_BLACK⟩,
    ⟨(350, 210), "Feels like: " ++ formatF0 w.feels_like ++ "°C", 50, COLOR_BLACK⟩,
    ⟨(35, 325), "High: " ++ formatF0 w.temp_max ++ "°C", 50, COLOR_BLACK⟩,
    ⟨(35, 390), "Low: " ++ formatF0 w.temp_min ++ "°C", 50, COLOR_BLACK⟩,
    ⟨(345, 340), "Humidity: " ++ toString w.humidity ++ "%", 30, COLOR_BLACK⟩,
    ⟨(345, 400), "Wind: " ++ formatF1 w.wind ++ " m/s", 30, COLOR_BLACK⟩,
    ⟨(627, 330), "UPDATED", 35, COLOR_WHITE⟩,
    ⟨(627, 375), env.clock, 60, COLOR_WHITE⟩]
  ⟨bg.1, ic.1, texts,
    bg.2 ++ ic.2 ++ [⟨.info, "Display image generated successfully."⟩]⟩

/-- A payload value read where the renderer's format specs need a real
number (`format(v, '.0f')` accepts ints, floats and bools, and raises for
anything else). -/
def Json.asNum : Json → Except PyError ℚ
  | .int z => .ok (z : ℚ)
  | .float q => .ok q
  | .bool b => .ok (if b then 1 else 0)
  | _ => .error (.typeError "unsupported format string passed to value")

/-- A payload value read where the data model fixes an integer (the
humidity percentage; the provider delivers a JSON integer and the script
interpolates it with `str`). -/
def Json.asInt : Json → Except PyError ℤ
  | .int z => .ok z
  | .bool b => .ok (if b then 1 else 0)
  | _ => .error (.typeError "expected an integer value")

/-- A payload value read where the layout expects a string (the report
text and the icon file-name stem). -/
def Json.asStr : Json → Except PyError String
  | .str s => .ok s
  | _ => .error (.typeError "expected a string value")

/-- The dynamic-type expectations `generate_display_image` places on the
projected record: its format specs need real numbers, the humidity slot an
integer and the report/icon slots strings.  In Python these requirements
surface as exceptions inside the renderer's `try` block; here they are
checked up front so the renderer itself can be a total function. -/
def toReading (r : WeatherRecord) : Except PyError WeatherReading := do
  let t ← r.temp_current.asNum
  let fl ← r.feels_like.asNum
  let hu ← r.humidity.asInt
  let wi ← r.wind.asNum
  let rep ← r.report.asStr
  let ic ← r.icon_code.asStr
  let tmax ← r.temp_max.asNum
  let tmin ← r.temp_min.asNum
  let pp ← r.precip_percent.asNum
  return ⟨t, fl, hu, wi, rep, ic, tmax, tmin, pp⟩

/-- The renderer stage with its `try/except` logging: on success the
image and its own log lines; a failure (a record value of the wrong
dynamic type) is logged as "Error generating display image" and
re-raised. -/
def render_stage (env : RenderEnv) (r : WeatherRecord) :
    Except PyError RenderResult × List LogEntry :=
  match toReading r with
  | .ok w =>
      let res := generate_display_image env w
      (.ok res, res.logs)
  | .error e => (.error e, [⟨.error, "Error generating display image: " ++ e.text⟩])

/-- One hardware operation of the panel driver, in the order the script
issues them.  `getbuffer` is the driver's opaque encoding, so the
`display` operation carries the two source images themselves as the
transmitted buffers. -/
inductive HwOp where
  | init
  | clear
  | display (black red : PILImage)
  | sleep

/-- The panel environment: the driver's reported resolution and which of
the four driver calls would raise a hardware error. -/
structure EpdEnv where
  width : Nat
  height : Nat
  initFails : Bool
  clearFails : Bool
  displayFails : Bool
  sleepFails : Bool

/-- `display_image(black_image)`: init, clear, build a blank white
secondary image at the panel's reported size, convert both images and
transmit, then put the panel to sleep; any failure is logged and
re-raised.  Returns the outcome, the trace of hardware operations
attempted, and the log lines. -/
def display_image (env : EpdEnv) (black : PILImage) :
    Except PyError Unit × List HwOp × List LogEntry :=
  if env.initFails then
    (.error (.hardwareError "init failed"), [.init],
      [⟨.info, "Initializing E-Paper display..."⟩,
       ⟨.error, "Failed to display image: init failed"⟩])
  else if env.clearFails then
    (.error (.hardwareError "clear failed"), [.init, .clear],
      [⟨.info, "Initializing E-Paper display..."⟩,
       ⟨.error, "Failed to display image: clear failed"⟩])
  else
    let red := imageNew "1" env.width env.height COLOR_WHITE
    if env.displayFails then
      (.error (.hardwareError "display failed"), [.init, .clear, .display black red],
        [⟨.info, "Initializing E-Paper display..."⟩,
         ⟨.info, "Sending image to screen (this takes ~15-20 seconds)..."⟩,
         ⟨.error, "Failed to display image: display failed"⟩])
    else if env.sleepFails then
      (.error (.hardwareError "sleep failed"),
        [.init, .clear, .display black red, .sleep],
        [⟨.info, "Initializing E-Paper display..."⟩,
         ⟨.info, "Sending image to screen (this takes ~15-20 seconds)..."⟩,
         ⟨.info, "Putting display to sleep."⟩,
         ⟨.error, "Failed to display image: sleep failed"⟩])
    else
      (.ok (), [.init, .clear, .display black red, .sleep],
        [⟨.info, "Initializing E-Paper display..."⟩,
         ⟨.info, "Sending image to screen (this takes ~15-20 seconds)..."⟩,
         ⟨.info, "Putting display to sleep."⟩])

/-- The whole program's external inputs: the API key environment variable,
the outcome of the HTTP fetch (a payload, or the message of the
`requests.RequestException` covering transport errors, timeouts and
non-success statuses raised by `raise_for_status`), the renderer's
filesystem and clock, and the panel. -/
structure Env where
  apiKey : Option String
  fetchResult : Except String Json
  render : RenderEnv
  epd : EpdEnv

/-- `fetch_weather_data()`: the HTTP call's outcome with its logging — an
info line on success, and on any `RequestException` an error line before
the exception is re-raised. -/
def fetch_weather_data (env : Env) : Except PyError Json × List LogEntry :=
  match env.fetchResult with
  | .ok data => (.ok data, [⟨.info, "Weather data fetched successfully."⟩])
  | .error m =>
      (.error (.requestError m), [⟨.error, "Failed to fetch weather data: " ++ m⟩])

/-- The four pipeline stages, for recording which of them a run entered. -/
inductive Stage where
  | fetch
  | process
  | render
  | display
  deriving Repr, DecidableEq

/-- The observable outcome of one process run: the exit code, the stages
entered, the hardware operations attempted and the log stream. -/
structure RunResult where
  exitCode : Nat
  stages : List Stage
  hw : List HwOp
  logs : List LogEntry

/-- The log line opening every run of `main`. -/
def startLog : LogEntry := ⟨.info, "--- Weather Script Started ---"⟩

/-- The log line closing a fully successful run of `main`. -/
def doneLog : LogEntry := ⟨.info, "--- Weather Script Finished Successfully ---"⟩

/-- The top-level handler's log line for an exception `e`. -/
def mainErrLog (e : PyError) : LogEntry :=
  ⟨.error, "An unexpected error occurred in main loop: " ++ e.text⟩

/-- `main()`: run fetch, project, render and display in order; any
exception reaching the top level is logged once more and the process
exits with status 1, otherwise it finishes with status 0. -/
def main (env : Env) : RunResult :=
  match fetch_weather_data env with
  | (.error e, lg1) => ⟨1, [.fetch], [], startLog :: lg1 ++ [mainErrLog e]⟩
  | (.ok raw, lg1) =>
    match process_weather_data_run raw with
    | (.error e, lg2) =>
        ⟨1, [.fetch, .process], [], startLog :: lg1 ++ lg2 ++ [mainErrLog e]⟩
    | (.ok rec, lg2) =>
      match render_stage env.render rec with
      | (.error e, lg3) =>
          ⟨1, [.fetch, .process, .render], [],
            startLog :: lg1 ++ lg2 ++ lg3 ++ [mainErrLog e]⟩
      | (.ok res, lg3) =>
        match display_image env.epd res.image with
        | (.error e, hw, lg4) =>
            ⟨1, [.fetch, .process, .render, .display], hw,
              startLog :: lg1 ++ lg2 ++ lg3 ++ lg4 ++ [mainErrLog e]⟩
        | (.ok _, hw, lg4) =>
            ⟨0, [.fetch, .process, .render, .display], hw,
              startLog :: lg1 ++ lg2 ++ lg3 ++ lg4 ++ [doneLog]⟩

/-- Python truthiness of the `API_KEY` value: `if not API_KEY` fires when
the environment variable is unset (`None`) or the empty string. -/
def api_key_ok : Option String → Bool
  | none => false
  | some s => !s.isEmpty

/-- The module-level initialization: reading `OPENWEATHER_API_KEY` and
raising `ValueError` when it is missing or empty, before any function of
the pipeline is defined or called. -/
def load_module (apiKey : Option String) : Except PyError Unit :=
  if api_key_ok apiKey then .ok ()
  else .error (.valueError "No API key found! Please check your .env file.")

/-- One whole process invocation: module initialization first (an
unhandled `ValueError` there terminates the interpreter with status 1
before any stage runs or any log handler is configured), then `main`. -/
def run_program (env : Env) : RunResult :=
  match load_module env.apiKey with
  | .error _ => ⟨1, [], [], []⟩
  | .ok _ => main env

/-- A well-formed provider payload with every required field present
(temperature 21.6, feels-like 20.9, humidity 64, wind 3.42, description
"light rain", icon "10d", daily max 23.4, min 14.2, pop 0.17). -/
def samplePayload : Json :=
  .obj [
    ("lat", .float (mkRat 614285 10000)),
    ("current", .obj [
      ("temp", .float (mkRat 216 10)),
      ("feels_like", .float (mkRat 209 10)),
      ("humidity", .int 64),
      ("wind_speed", .float (mkRat 342 100)),
      ("weather", .arr [.obj [
        ("description", .str "light rain"),
        ("icon", .str "10d")]])]),
    ("daily", .arr [.obj [
      ("temp", .obj [("max", .float (mkRat 234 10)), ("min", .float (mkRat 142 10))]),
      ("pop", .float (mkRat 17 100))]])]

/-- `samplePayload` with the required `humidity` key removed. -/
def missingHumidity : Json :=
  .obj [
    ("current", .obj [
      ("temp", .float (mkRat 216 10)),
      ("feels_like", .float (mkRat 209 10)),
      ("wind_speed", .float (mkRat 342 100)),
      ("weather", .arr [.obj [
        ("description", .str "light rain"),
        ("icon", .str "10d")]])]),
    ("daily", .arr [.obj [
      ("temp", .obj [("max", .float (mkRat 234 10)), ("min", .float (mkRat 142 10))]),
      ("pop", .float (mkRat 17 100))]])]

/-- `samplePayload` with the `daily` key bound to an empty list. -/
def emptyDailyPayload : Json :=
  .obj [
    ("current", .obj [
      ("temp", .float (mkRat 216 10)),
      ("feels_like", .float (mkRat 209 10)),
      ("humidity", .int 64),
      ("wind_speed", .float (mkRat 342 100)),
      ("weather", .arr [.obj [
        ("description", .str "light rain"),
        ("icon", .str "10d")]])]),
    ("daily", .arr [])]

/-- A blank white 800×480 1-bit image. -/
def blankImage : PILImage := imageNew "1" 800 480 COLOR_WHITE

/-- The reading projected from `samplePayload`, at the renderer's types. -/
def sampleReading : WeatherReading :=
  ⟨mkRat 216 10, mkRat 209 10, 64, mkRat 342 100, "Light Rain", "10d",
   mkRat 234 10, mkRat 142 10, 17⟩

/-- A render environment with no template file and no icon files. -/
def noAssetsRender : RenderEnv :=
  ⟨false, blankImage, fun _ => false, fun _ => blankImage, "12:00"⟩

/-- A render environment whose template file exists at the panel's own
800×480 resolution. -/
def okTemplateEnv : RenderEnv :=
  ⟨true, blankImage, fun _ => false, fun _ => blankImage, "12:00"⟩

/-- A 100×100 RGB image: a template of the wrong size. -/
def smallTemplate : PILImage := ⟨"RGB", 100, 100, fun _ _ => 255⟩

/-- A render environment whose template file exists but is 100×100. -/
def badTemplateEnv : RenderEnv :=
  ⟨true, smallTemplate, fun _ => false, fun _ => blankImage, "12:00"⟩

/-- A panel on which every driver call succeeds. -/
def okEpd : EpdEnv := ⟨800, 480, false, false, false, false⟩

/-- A run whose HTTP fetch raises a timeout. -/
def envFetchFail : Env := ⟨some "key", .error "timeout", noAssetsRender, okEpd⟩

/-- A run in which every stage succeeds. -/
def envOk : Env := ⟨some "key", .ok samplePayload, noAssetsRender, okEpd⟩

/-- A run with the API key environment variable unset. -/
def envNoKey : Env := ⟨none, .ok samplePayload, noAssetsRender, okEpd⟩

/-- A run whose payload has `daily` bound to an empty list. -/
def envEmptyDaily : Env := ⟨some "key", .ok emptyDailyPayload, noAssetsRender, okEpd⟩

@[simp]
theorem except_ok_bind {α β : Type} (a : α) (f : α → Except PyError β) :
    (Except.ok a : Except PyError α) >>= f = f a := rfl

@[simp]
theorem except_error_bind {α β : Type} (e : PyError) (f : α → Except PyError β) :
    (Except.error e : Except PyError α) >>= f = .error e := rfl

theorem except_bind_eq_ok {α β : Type} {e : Except PyError α}
    {f : α → Except PyError β} {b : β} :
    e >>= f = .ok b ↔ ∃ a, e = .ok a ∧ f a = .ok b := by
  cases e with
  | ok a => simp
  | error err =>
      simp only [except_error_bind]
      constructor
      · intro h; cases h
      · rintro ⟨a, ha, _⟩; cases ha

@[simp]
theorem except_pure_eq {α : Type} (a : α) :
    (pure a : Except PyError α) = .ok a := rfl

theorem formatF1_scales_tenths (q : ℚ) : mkRat (10 * q.num) q.den = 10 * q := by
  rw [Rat.mkRat_eq_div]
  push_cast
  rw [mul_div_assoc, Rat.num_div_den]

theorem process_ok_required {data : Json} {rec : WeatherRecord}
    (h : process_weather_data data = .ok rec) :
    required_lookups data = .ok () := by
  simp only [process_weather_data, except_bind_eq_ok, except_pure_eq] at h
  obtain ⟨current, h1, dailyArr, h2, daily, h3, tc, h4, fl, h5, hu, h6, wi, h7,
    wArr, h8, w0, h9, descr, h10, rep, h11, wArr2, h12, w02, h13, ic, h14,
    dt, h15, tmax, h16, dt2, h17, tmin, h18, popJ, h19, pp, h20, hrec⟩ := h
  injection h8.symm.trans h12 with e1
  subst e1
  injection h9.symm.trans h13 with e2
  subst e2
  injection h15.symm.trans h17 with e3
  subst e3
  simp [required_lookups, h1, h2, h3, h4, h5, h6, h7, h8, h9, h10, h14,
    h15, h16, h18, h19]

/-- C1: for every payload containing the required fields, the projector
returns the record whose `precip_percent` is the source `pop` value times
100, whose `report` is the title-cased source description, and whose
other seven fields are the source values unchanged. -/
theorem projector_field_extraction
    (data : Json) {current dailyArr daily wArr w0 dtemp : Json}
    {tempJ flJ huJ wiJ iconJ tmaxJ tminJ popJ popTimes : Json} {desc : String}
    (hcur : data.getKey "current" = .ok current)
    (hdailyA : data.getKey "daily" = .ok dailyArr)
    (hdaily0 : dailyArr.getIdx 0 = .ok daily)
    (ht : current.getKey "temp" = .ok tempJ)
    (hf : current.getKey "feels_like" = .ok flJ)
    (hh : current.getKey "humidity" = .ok huJ)
    (hwind : current.getKey "wind_speed" = .ok wiJ)
    (hwa : current.getKey "weather" = .ok wArr)
    (hw0 : wArr.getIdx 0 = .ok w0)
    (hdesc : w0.getKey "description" = .ok (.str desc))
    (hicon : w0.getKey "icon" = .ok iconJ)
    (hdt : daily.getKey "temp" = .ok dtemp)
    (hmax : dtemp.getKey "max" = .ok tmaxJ)
    (hmin : dtemp.getKey "min" = .ok tminJ)
    (hpop : daily.getKey "pop" = .ok popJ)
    (hmul : popJ.mulInt 100 = .ok popTimes) :
    process_weather_data data =
      .ok ⟨tempJ, flJ, huJ, wiJ, .str (pyTitle desc), iconJ, tmaxJ, tminJ, popTimes⟩ ∧
    (∀ p : ℚ, popJ = .float p → popTimes = .float (p * 100)) ∧
    (∀ z : ℤ, popJ = .int z → popTimes = .int (z * 100)) := by
  refine ⟨?_, ?_, ?_⟩
  · exact except_bind_eq_ok.mpr ⟨current, hcur,
      except_bind_eq_ok.mpr ⟨dailyArr, hdailyA,
      except_bind_eq_ok.mpr ⟨daily, hdaily0,
      except_bind_eq_ok.mpr ⟨tempJ, ht,
      except_bind_eq_ok.mpr ⟨flJ, hf,
      except_bind_eq_ok.mpr ⟨huJ, hh,
      except_bind_eq_ok.mpr ⟨wiJ, hwind,
      except_bind_eq_ok.mpr ⟨wArr, hwa,
      except_bind_eq_ok.mpr ⟨w0, hw0,
      except_bind_eq_ok.mpr ⟨.str desc, hdesc,
      except_bind_eq_ok.mpr ⟨.str (pyTitle desc), rfl,
      except_bind_eq_ok.mpr ⟨wArr, hwa,
      except_bind_eq_ok.mpr ⟨w0, hw0,
      except_bind_eq_ok.mpr ⟨iconJ, hicon,
      except_bind_eq_ok.mpr ⟨dtemp, hdt,
      except_bind_eq_ok.mpr ⟨tmaxJ, hmax,
      except_bind_eq_ok.mpr ⟨dtemp, hdt,
      except_bind_eq_ok.mpr ⟨tminJ, hmin,
      except_bind_eq_ok.mpr ⟨popJ, hpop,
      except_bind_eq_ok.mpr ⟨popTimes, hmul, rfl⟩⟩⟩⟩⟩⟩⟩⟩⟩⟩⟩⟩⟩⟩⟩⟩⟩⟩⟩⟩
  · rintro p rfl
    simp only [Json.mulInt, Except.ok.injEq] at hmul
    rw [← hmul]
    norm_num
  · rintro z rfl
    simp only [Json.mulInt, Except.ok.injEq] at hmul
    rw [← hmul]

theorem projector_field_extraction_witness :
    process_weather_data samplePayload =
      .ok ⟨.float (mkRat 216 10), .float (mkRat 209 10), .int 64, .float (mkRat 342 100),
           .str "Light Rain", .str "10d", .float (mkRat 234 10), .float (mkRat 142 10),
           .float 17⟩ := by
  have h := (projector_field_extraction samplePayload rfl rfl rfl rfl rfl rfl rfl rfl
    rfl rfl rfl rfl rfl rfl rfl rfl).1
  rw [h]
  have h1 : pyTitle "light rain" = "Light Rain" := by decide
  have h2 : mkRat 17 100 * ((100 : ℤ) : ℚ) = 17 := by
    rw [Rat.mkRat_eq_div]; norm_num
  rw [h1, h2]

/-- C2: temperatures and the precipitation percentage are formatted with
zero decimals, the wind with one decimal and the humidity as a plain
integer, at draw time only (the reading's rational fields enter the draw
operations through `formatF0`/`formatF1` and are otherwise untouched);
in particular a reading with `temp_current = 21.6`, `wind = 3.42` and
`precip_percent = 17.0` is drawn as `"22°C"`, `"3.4 m/s"` and `"17%"`. -/
theorem renderer_numeric_formatting :
    (∀ (env : RenderEnv) (w : WeatherReading),
      (generate_display_image env w).texts = [
        ⟨(30, 200), "Now: " ++ w.report, 22, COLOR_BLACK⟩,
        ⟨(30, 240), "Precip: " ++ formatF0 w.precip_percent ++ "%", 30, COLOR_BLACK⟩,
        ⟨(375, 35), formatF0 w.temp_current ++ "°C", 160, COLOR_BLACK⟩,
        ⟨(350, 210), "Feels like: " ++ formatF0 w.feels_like ++ "°C", 50, COLOR_BLACK⟩,
        ⟨(35, 325), "High: " ++ formatF0 w.temp_max ++ "°C", 50, COLOR_BLACK⟩,
        ⟨(35, 390), "Low: " ++ formatF0 w.temp_min ++ "°C", 50, COLOR_BLACK⟩,
        ⟨(345, 340), "Humidity: " ++ toString w.humidity ++ "%", 30, COLOR_BLACK⟩,
        ⟨(345, 400), "Wind: " ++ formatF1 w.wind ++ " m/s", 30, COLOR_BLACK⟩,
        ⟨(627, 330), "UPDATED", 35, COLOR_WHITE⟩,
        ⟨(627, 375), env.clock, 60, COLOR_WHITE⟩]) ∧
    (∀ (env : RenderEnv) (w : WeatherReading),
      w.temp_current = 21.6 → w.wind = 3.42 → w.precip_percent = 17 →
      (⟨(375, 35), "22°C", 160, COLOR_BLACK⟩ : TextOp) ∈
        (generate_display_image env w).texts ∧
      (⟨(345, 400), "Wind: 3.4 m/s", 30, COLOR_BLACK⟩ : TextOp) ∈
        (generate_display_image env w).texts ∧
      (⟨(30, 240), "Precip: 17%", 30, COLOR_BLACK⟩ : TextOp) ∈
        (generate_display_image env w).texts) := by
  constructor
  · intro env w
    rfl
  · intro env w h1 h2 h3
    have e1 : formatF0 w.temp_current = "22" := by
      rw [h1]
      have hq : (21.6 : ℚ) = mkRat 216 10 := by norm_num
      rw [hq]; decide
    have e2 : formatF1 w.wind = "3.4" := by
      rw [h2]
      have hq : (3.42 : ℚ) = mkRat 342 100 := by norm_num
      rw [hq]; decide
    have e3 : formatF0 w.precip_percent = "17" := by
      rw [h3]; decide
    refine ⟨?_, ?_, ?_⟩ <;> simp [generate_display_image, e1, e2, e3]

theorem renderer_numeric_formatting_witness :
    (⟨(375, 35), "22°C", 160, COLOR_BLACK⟩ : TextOp) ∈
      (generate_display_image noAssetsRender sampleReading).texts ∧
    (⟨(345, 400), "Wind: 3.4 m/s", 30, COLOR_BLACK⟩ : TextOp) ∈
      (generate_display_image noAssetsRender sampleReading).texts ∧
    (⟨(30, 240), "Precip: 17%", 30, COLOR_BLACK⟩ : TextOp) ∈
      (generate_display_image noAssetsRender sampleReading).texts :=
  renderer_numeric_formatting.2 noAssetsRender sampleReading
    (by show mkRat 216 10 = (21.6 : ℚ); norm_num)
    (by show mkRat 342 100 = (3.42 : ℚ); norm_num)
    rfl

/-- C3: when the template file is absent the renderer's background is an
800×480 image in 1-bit mode whose every pixel is white. -/
theorem renderer_blank_canvas (env : RenderEnv) (w : WeatherReading)
    (h : env.templateExists = false) :
    (generate_display_image env w).image.width = 800 ∧
    (generate_display_image env w).image.height = 480 ∧
    (generate_display_image env w).image.mode = "1" ∧
    ∀ x y, (generate_display_image env w).image.pix x y = COLOR_WHITE := by
  simp [generate_display_image, h, imageNew]

theorem renderer_blank_canvas_witness :
    (generate_display_image noAssetsRender sampleReading).image.width = 800 ∧
    (generate_display_image noAssetsRender sampleReading).image.height = 480 ∧
    (generate_display_image noAssetsRender sampleReading).image.mode = "1" ∧
    ∀ x y, (generate_display_image noAssetsRender sampleReading).image.pix x y
      = COLOR_WHITE :=
  renderer_blank_canvas noAssetsRender sampleReading rfl

/-- C4: when no icon asset matches the reading's `icon_code` the renderer
does not fail: it pastes nothing, logs a warning naming the missing file,
and still draws all ten fixed text overlays (report, precipitation,
current temperature, feels-like, high, low, humidity, wind, the
"UPDATED" caption and the clock). -/
theorem renderer_missing_icon (env : RenderEnv) (w : WeatherReading)
    (h : env.iconExists w.icon_code = false) :
    (generate_display_image env w).pastes = [] ∧
    (⟨.warning, "Weather icon " ++ w.icon_code ++ ".png not found."⟩ : LogEntry) ∈
      (generate_display_image env w).logs ∧
    (generate_display_image env w).texts = [
      ⟨(30, 200), "Now: " ++ w.report, 22, COLOR_BLACK⟩,
      ⟨(30, 240), "Precip: " ++ formatF0 w.precip_percent ++ "%", 30, COLOR_BLACK⟩,
      ⟨(375, 35), formatF0 w.temp_current ++ "°C", 160, COLOR_BLACK⟩,
      ⟨(350, 210), "Feels like: " ++ formatF0 w.feels_like ++ "°C", 50, COLOR_BLACK⟩,
      ⟨(35, 325), "High: " ++ formatF0 w.temp_max ++ "°C", 50, COLOR_BLACK⟩,
      ⟨(35, 390), "Low: " ++ formatF0 w.temp_min ++ "°C", 50, COLOR_BLACK⟩,
      ⟨(345, 340), "Humidity: " ++ toString w.humidity ++ "%", 30, COLOR_BLACK⟩,
      ⟨(345, 400), "Wind: " ++ formatF1 w.wind ++ " m/s", 30, COLOR_BLACK⟩,
      ⟨(627, 330), "UPDATED", 35, COLOR_WHITE⟩,
      ⟨(627, 375), env.clock, 60, COLOR_WHITE⟩] := by
  refine ⟨?_, ?_, rfl⟩
  · simp [generate_display_image, h]
  · cases ht : env.templateExists <;> simp [generate_display_image, h, ht]

theorem renderer_missing_icon_witness :
    (generate_display_image noAssetsRender sampleReading).pastes = [] ∧
    (⟨.warning, "Weather icon 10d.png not found."⟩ : LogEntry) ∈
      (generate_display_image noAssetsRender sampleReading).logs := by
  have h := renderer_missing_icon noAssetsRender sampleReading rfl
  exact ⟨h.1, h.2.1⟩

/-- C5: the projector never returns a partial record or applies a
default: on success all nine required fields were present and the run
logs one info line, while on any error the failed computation is
re-raised — logged when it is a `KeyError`, unlogged otherwise — and a
payload missing a required field always errors. -/
theorem projector_no_partial_record (data : Json) :
    (∀ e, process_weather_data data = .error e →
      process_weather_data_run data =
        (.error e,
          if e.isKeyError then
            [⟨.error, "Error processing weather data: " ++ e.text⟩]
          else [])) ∧
    (∀ rec, process_weather_data data = .ok rec →
      process_weather_data_run data =
        (.ok rec, [⟨.info, "Weather data processed successfully."⟩]) ∧
      has_required_fields data = true) ∧
    (has_required_fields data = false → ∃ e, process_weather_data data = .error e) := by
  refine ⟨?_, ?_, ?_⟩
  · intro e he
    simp only [process_weather_data_run, he]
    split <;> rfl
  · intro rec hr
    refine ⟨by simp [process_weather_data_run, hr], ?_⟩
    simp [has_required_fields, process_ok_required hr, exceptOk]
  · intro hreq
    cases hp : process_weather_data data with
    | error e => exact ⟨e, rfl⟩
    | ok rec =>
        have htrue : has_required_fields data = true := by
          simp [has_required_fields, process_ok_required hp, exceptOk]
        exact absurd htrue (by simp [hreq])

theorem projector_no_partial_record_witness :
    has_required_fields missingHumidity = false ∧
    process_weather_data_run missingHumidity =
      (.error (.keyError "humidity"),
        [⟨.error, "Error processing weather data: 'humidity'"⟩]) :=
  ⟨rfl, (projector_no_partial_record missingHumidity).1 (.keyError "humidity") rfl⟩

/-- C6: a successful presenter run performs exactly init, clear,
display with the composed image and a freshly constructed blank white
secondary image at the panel's reported size, then sleep — in that
order, each once, with sleep last. -/
theorem presenter_linear_order (env : EpdEnv) (black : PILImage)
    (h : (display_image env black).1 = .ok ()) :
    (display_image env black).2.1 =
      [.init, .clear,
       .display black (imageNew "1" env.width env.height COLOR_WHITE), .sleep] ∧
    (∀ x y, (imageNew "1" env.width env.height COLOR_WHITE).pix x y = COLOR_WHITE) := by
  obtain ⟨pw, ph, i, c, d, s⟩ := env
  cases i <;> cases c <;> cases d <;> cases s <;>
    simp_all [display_image, imageNew]

theorem presenter_linear_order_witness :
    (display_image okEpd blankImage).2.1 =
      [.init, .clear,
       .display blankImage (imageNew "1" okEpd.width okEpd.height COLOR_WHITE), .sleep] ∧
    (∀ x y, (imageNew "1" okEpd.width okEpd.height COLOR_WHITE).pix x y = COLOR_WHITE) :=
  presenter_linear_order okEpd blankImage rfl

/-- C7: a run whose fetch fails logs the error and exits with status 1
without attempting any hardware operation, and a run in which every
stage succeeds exits with status 0. -/
theorem driver_exit_codes (env : Env) :
    (∀ m, api_key_ok env.apiKey = true → env.fetchResult = .error m →
      run_program env =
        ⟨1, [.fetch], [],
          [startLog, ⟨.error, "Failed to fetch weather data: " ++ m⟩,
           mainErrLog (.requestError m)]⟩) ∧
    (∀ raw rec w, api_key_ok env.apiKey = true → env.fetchResult = .ok raw →
      process_weather_data raw = .ok rec → toReading rec = .ok w →
      env.epd.initFails = false → env.epd.clearFails = false →
      env.epd.displayFails = false → env.epd.sleepFails = false →
      (run_program env).exitCode = 0) := by
  constructor
  · intro m hk hf
    simp [run_program, load_module, hk, main, fetch_weather_data, hf]
  · intro raw rec w hk hf hp ht h1 h2 h3 h4
    simp [run_program, load_module, hk, main, fetch_weather_data, hf,
      process_weather_data_run, hp, render_stage, ht, display_image, h1, h2, h3, h4]

theorem driver_exit_codes_witness :
    run_program envFetchFail =
      ⟨1, [.fetch], [],
        [startLog, ⟨.error, "Failed to fetch weather data: timeout"⟩,
         mainErrLog (.requestError "timeout")]⟩ ∧
    (run_program envOk).exitCode = 0 :=
  ⟨(driver_exit_codes envFetchFail).1 "timeout" rfl rfl,
   (driver_exit_codes envOk).2 samplePayload _ _ rfl rfl rfl rfl rfl rfl rfl rfl⟩

/-- C8 counterexample: the renderer does not check the template's size —
with a present 100×100 template the composed image is 100 pixels wide,
not the panel's 800, so the claimed invariant fails as stated. -/
theorem template_resolution_counterexample :
    badTemplateEnv.templateExists = true ∧
    badTemplateEnv.templateImage.width = 100 ∧
    (generate_display_image badTemplateEnv sampleReading).image.width = 100 ∧
    (generate_display_image badTemplateEnv sampleReading).image.width ≠ 800 := by
  refine ⟨rfl, rfl, rfl, ?_⟩
  decide

/-- C8 (amended): provided a present template has the panel's 800×480
resolution — an asset precondition the renderer does not itself check —
the composed image has the panel's native resolution; an absent template
is replaced by a blank canvas of exactly that resolution. -/
theorem template_resolution_amended (env : RenderEnv) (w : WeatherReading)
    (h : env.templateExists = true →
      env.templateImage.width = 800 ∧ env.templateImage.height = 480) :
    (generate_display_image env w).image.width = 800 ∧
    (generate_display_image env w).image.height = 480 := by
  cases ht : env.templateExists with
  | false => simp [generate_display_image, ht, imageNew]
  | true =>
      obtain ⟨h1, h2⟩ := h ht
      simp [generate_display_image, ht, convert1, h1, h2]

theorem template_resolution_amended_witness :
    ((generate_display_image okTemplateEnv sampleReading).image.width = 800 ∧
     (generate_display_image okTemplateEnv sampleReading).image.height = 480) ∧
    ((generate_display_image noAssetsRender sampleReading).image.width = 800 ∧
     (generate_display_image noAssetsRender sampleReading).image.height = 480) :=
  ⟨template_resolution_amended okTemplateEnv sampleReading (fun _ => ⟨rfl, rfl⟩),
   template_resolution_amended noAssetsRender sampleReading (fun hc => by cases hc)⟩

/-- C9: an unset or empty `OPENWEATHER_API_KEY` raises `ValueError` at
module initialization, so the process terminates with status 1 before
any stage runs and before any hardware operation. -/
theorem api_key_guard (env : Env) (h : env.apiKey = none ∨ env.apiKey = some "") :
    load_module env.apiKey =
      .error (.valueError "No API key found! Please check your .env file.") ∧
    run_program env = ⟨1, [], [], []⟩ := by
  have hk : api_key_ok env.apiKey = false := by
    rcases h with h | h <;> rw [h] <;> decide
  constructor
  · simp [load_module, hk]
  · simp [run_program, load_module, hk]

theorem api_key_guard_witness :
    load_module envNoKey.apiKey =
      .error (.valueError "No API key found! Please check your .env file.") ∧
    run_program envNoKey = ⟨1, [], [], []⟩ :=
  api_key_guard envNoKey (Or.inl rfl)

/-- C10: a payload whose `daily` field is an empty list makes the
projector raise `IndexError`; the projector's own `except KeyError`
handler does not log it, and the top-level driver logs it and exits with
status 1. -/
theorem empty_daily_index_error (data : Json) (env : Env) {current : Json}
    (hcur : data.getKey "current" = .ok current)
    (hdaily : data.getKey "daily" = .ok (.arr [])) :
    process_weather_data data = .error .indexError ∧
    process_weather_data_run data = (.error .indexError, []) ∧
    (api_key_ok env.apiKey = true → env.fetchResult = .ok data →
      run_program env =
        ⟨1, [.fetch, .process], [],
          [startLog, ⟨.info, "Weather data fetched successfully."⟩,
           mainErrLog .indexError]⟩) := by
  have hp : process_weather_data data = .error .indexError := by
    simp [process_weather_data, hcur, hdaily, Json.getIdx]
  refine ⟨hp, ?_, ?_⟩
  · simp [process_weather_data_run, hp, PyError.isKeyError]
  · intro hk hf
    simp [run_program, load_module, hk, main, fetch_weather_data, hf,
      process_weather_data_run, hp, PyError.isKeyError]

theorem empty_daily_index_error_witness :
    run_program envEmptyDaily =
      ⟨1, [.fetch, .process], [],
        [startLog, ⟨.info, "Weather data fetched successfully."⟩,
         mainErrLog .indexError]⟩ :=
  (empty_daily_index_error emptyDailyPayload envEmptyDaily rfl rfl).2.2 rfl rfl

end Weather
